import Mathlib

/-!
Verification of the osg-repo-scripts publish pipeline.

This file gives a shallow embedding of the parts of the repository that the
checked properties are about:

* `Distrepos._update_release_repos` (src/bin/distrepos.py), the three-root
  working/released/previous directory rotation, including its rollback path;
* `Distrepos._update_pkglist_files` (src/bin/distrepos.py), the pkglist
  classification of RPM files into source / regular / debug lists and its
  temp-file-plus-rename write discipline;
* `Distrepos._create_compat_symlink` (src/bin/distrepos.py);
* `rsync_exists` (src/bin/distrepos.py);
* `test_single_mirror` / `is_migrated` (src/distrepos/mirror_run.py);
* `update_mirrors_for_tag` (src/distrepos/mirror_run.py);
* `acquire_lock` / `release_lock` (src/distrepos/util.py).

Directory contents are abstract values; the filesystem operations the Python
code performs (`shutil.rmtree`, `shutil.move`, `os.symlink`, `os.walk`,
`os.path.relpath`, renames) are modelled as explicit state transformations.
OSError outcomes of the individual filesystem calls are injected through an
explicit failure plan, since the Python code reacts to them with try/except.
-/

namespace Distrepos

/-! ## Three-root rotation: `Distrepos._update_release_repos`

The state of one tag's three directory roots.  `none` means the directory
does not exist; `some c` means it exists and holds content `c`.  Contents are
abstract: `shutil.move` and `shutil.rmtree` act on whole trees.
-/

structure RepoState (α : Type) where
  working : Option α
  released : Option α
  previous : Option α
deriving DecidableEq, Repr

/--
Which of the filesystem calls inside `_update_release_repos` raise `OSError`.
`rmtreeFails` is the `shutil.rmtree(previous_path)` call, `moveRelFails` the
`shutil.move(release_path, previous_path)` call, `moveWorkFails` the
`shutil.move(working_path, release_path)` call, and `rollbackFails` the
rollback `shutil.move(previous_path, release_path)` call.
-/
structure FailPlan where
  rmtreeFails : Bool
  moveRelFails : Bool
  moveWorkFails : Bool
  rollbackFails : Bool
deriving DecidableEq, Repr

def noFail : FailPlan := ⟨false, false, false, false⟩

/--
The final `shutil.move(working_path, release_path)` of
`_update_release_repos`, together with the `except OSError` rollback branch:
on failure, if the previous path exists, try to move it back to the release
path (this rollback may itself fail, which is only logged), then raise
`TagFailure`.  The `Bool` result is `true` for success and `false` for a
raised `TagFailure`.
-/
def finalMove {α : Type} (fp : FailPlan) (s : RepoState α) (w : α) :
    Bool × RepoState α :=
  if fp.moveWorkFails then
    match s.previous with
    | some p =>
      if fp.rollbackFails then (false, s)
      else (false, { s with released := some p, previous := none })
    | none => (false, s)
  else (true, { s with working := none, released := some w })

/--
`Distrepos._update_release_repos` (src/bin/distrepos.py lines 582-654).
In order: fail if the working path does not exist; clear the previous path if
it exists (`shutil.rmtree`); move the release path to the previous path if the
release path exists; move the working path to the release path, rolling back
on failure (`finalMove`).  The `mkdir(parents=True, exist_ok=True)` calls on
the parent directories do not change any of the three roots and are not
represented.  A failed `rmtree` or `move` raises `OSError`, caught and
re-raised as `TagFailure` (result `false`), leaving the roots as they were.
-/
def update_release_repos {α : Type} (fp : FailPlan) (s : RepoState α) :
    Bool × RepoState α :=
  match s.working with
  | none => (false, s)
  | some w =>
    if s.previous.isSome && fp.rmtreeFails then (false, s)
    else
      let s1 : RepoState α := { s with previous := none }
      match s1.released with
      | some r =>
        if fp.moveRelFails then (false, s1)
        else finalMove fp { s1 with released := none, previous := some r } w
      | none => finalMove fp s1 w

/-! ## Remote existence probe: `rsync_exists` (src/bin/distrepos.py 136-143)

`rsync_exists` inspects only the return code of `rsync --list-only`.  The
Python function is annotated `-> bool` but on any return code other than `0`
and `23` it executes `pass` and falls off the end, implicitly returning
`None`; this is modelled by `Option Bool`, with `none` standing for Python's
`None`.
-/

def rsync_exists (returncode : Int) : Option Bool :=
  if returncode = 0 then some true
  else if returncode = 23 then some false
  else none

/-! ## Mirror freshness validator (src/distrepos/mirror_run.py)

HTTP requests are modelled by their observable outcomes: the response to the
`repomd.xml` request is a status code plus an optional `Last-Modified`
header, and the response to the sibling `pkglist` request is a status code.
`datetime.strptime` is the abstract parameter `parseLastModified`: `none`
models a raised `ValueError`, `some t` a parsed timestamp (seconds);
`datetime.now()` is the parameter `now` and `timedelta(hours=24)` is 86400
seconds.
-/

structure HttpResponse where
  status : Nat
  lastModified : Option String
deriving DecidableEq, Repr

/--
`is_migrated` (src/distrepos/mirror_run.py lines 48-69): given the status of
the GET of the `pkglist` URL one level above the repodata directory, return
`false` on 404, `false` on any other non-200 status, `true` on 200.
-/
def is_migrated (pkglistStatus : Nat) : Bool :=
  if pkglistStatus = 404 then false
  else if pkglistStatus ≠ 200 then false
  else true

/--
`test_single_mirror` (src/distrepos/mirror_run.py lines 72-107).  Returns
`some b` when the Python function returns the bool `b`, and `none` when it
raises an exception: `datetime.strptime` is called on the `Last-Modified`
header without any exception handler, so an unparseable header propagates a
`ValueError` out of the function.
-/
def test_single_mirror (parseLastModified : String → Option Int) (now : Int)
    (repomdResponse : HttpResponse) (pkglistStatus : Nat) : Option Bool :=
  if repomdResponse.status ≠ 200 then some false
  else
    match repomdResponse.lastModified with
    | none => some false
    | some lastmodStr =>
      match parseLastModified lastmodStr with
      | none => none
      | some lastmodtime =>
        if now - lastmodtime > 86400 then some false
        else some (is_migrated pkglistStatus)

/-! ## Run lock: `acquire_lock` / `release_lock` (src/distrepos/util.py)

The OS-level `flock` table is the list of lock-file paths currently holding
an exclusive lock.  A handle is identified by the path it locks (the Python
handle is the open file object whose descriptor holds the flock).
-/

structure LockTable where
  held : List String
deriving DecidableEq, Repr

/--
`acquire_lock` (src/distrepos/util.py lines 11-31): open the lock file and
try `flock(LOCK_EX | LOCK_NB)`; if another handle already holds the lock,
the flock raises `BlockingIOError` and the function returns `None` without
blocking; otherwise the handle is returned and the lock recorded.
-/
def acquire_lock (st : LockTable) (lockPath : String) :
    Option String × LockTable :=
  if lockPath ∈ st.held then (none, st)
  else (some lockPath, ⟨lockPath :: st.held⟩)

/--
`release_lock` (src/distrepos/util.py lines 34-47): with no handle, do
nothing; otherwise `flock(LOCK_UN)` releases the lock (the close and the
unlink of the lock file do not affect the lock table).
-/
def release_lock (st : LockTable) (handle : Option String) : LockTable :=
  match handle with
  | none => st
  | some p => ⟨st.held.erase p⟩

/-! ## Mirror-list update loop: `update_mirrors_for_tag`
(src/distrepos/mirror_run.py lines 110-151)

The per-candidate check `test_single_mirror` is abstracted as the boolean
oracle `good arch hostname`; `goodMirrorsFor` is the inner `for hostname`
loop collecting the accepted mirror bases in candidate order.  The result
records the success flag, the per-arch working mirror files written (the
`open(working_path / arch, 'w')` writes, in order), and whether the final
`update_release_repos(dest_path, working_path, prev_path)` call was reached
(only that call touches the released mirror-list tree).
-/

def goodMirrorsFor (hostnames : List String) (good : String → String → Bool)
    (arch : String) : List String :=
  hostnames.filter (fun h => good arch h)

structure MirrorRunResult where
  ok : Bool
  workingFiles : List (String × List String)
  rotationInvoked : Bool
deriving DecidableEq, Repr

/-- The `for arch in tag.arches` loop of `update_mirrors_for_tag`: on the
first arch with no good mirrors, return failure immediately (before the
rotation); otherwise write the arch's working mirror file and continue.
After the loop, the rotation is invoked. -/
def update_mirrors_loop (hostnames : List String)
    (good : String → String → Bool) :
    List String → List (String × List String) → MirrorRunResult
  | [], acc => ⟨true, acc, true⟩
  | arch :: rest, acc =>
    let goodMirrors := goodMirrorsFor hostnames good arch
    if goodMirrors = [] then ⟨false, acc, false⟩
    else update_mirrors_loop hostnames good rest (acc ++ [(arch, goodMirrors)])

def update_mirrors_for_tag (hostnames : List String)
    (good : String → String → Bool) (arches : List String) : MirrorRunResult :=
  update_mirrors_loop hostnames good arches []

/-! ## Atomic pkglist rewrite (src/bin/distrepos.py lines 496-557)

`_update_pkglist_files` writes each new pkglist by opening
`f"{pkglist}.new"` for writing (truncating), printing one relative path per
line, and then `shutil.move`-ing the `.new` file over the final name (the
two live in the same directory, so the move is an `os.rename`).  The two
on-disk names involved in one rewrite are modelled by `PkglistFile`; an
interrupted rebuild is a proper prefix of the rebuild's step trace.
-/

structure PkglistFile where
  tmp : Option (List String)
  final : Option (List String)
deriving DecidableEq, Repr

inductive WriteStep where
  | openNew
  | writeLine (line : String)
  | renameToFinal
deriving DecidableEq, Repr

/-- Effect of one step on the two names: `openNew` is the truncating
`open(f"{pkglist}.new", "wt")`, `writeLine` one `print(..., file=fh)`, and
`renameToFinal` the `shutil.move(f"{pkglist}.new", pkglist)`. -/
def applyStep (s : PkglistFile) : WriteStep → PkglistFile
  | .openNew => { s with tmp := some [] }
  | .writeLine l => { s with tmp := s.tmp.map (· ++ [l]) }
  | .renameToFinal => ⟨none, s.tmp⟩

def runSteps (s : PkglistFile) (steps : List WriteStep) : PkglistFile :=
  steps.foldl applyStep s

/-- The step trace of one pkglist rebuild: open the `.new` file, print every
entry, then rename it over the final name. -/
def rebuildSteps (lines : List String) : List WriteStep :=
  WriteStep.openNew :: (lines.map WriteStep.writeLine ++ [WriteStep.renameToFinal])

/-! ## Pkglist classification: `_update_pkglist_files`
(src/bin/distrepos.py lines 484-557)

Paths are lists of components; a walked file is a pair of the directory path
(components relative to the tag's working path, as produced by `os.walk` of
the `Packages` tree) and the filename.  `relpath` is `os.path.relpath` on
component lists (longest common prefix, then one `..` per remaining base
component).  Python's `str.endswith` and the `in` substring test are
`strEndsWith` and `strContains` on the character lists.
-/

def relpath : List String → List String → List String
  | p, [] => p
  | [], b => List.replicate b.length ".."
  | x :: p, y :: b =>
    if x = y then relpath p b
    else List.replicate (b.length + 1) ".." ++ x :: p

def strEndsWith (s pat : String) : Bool := pat.data.isSuffixOf s.data

def strContains (s pat : String) : Bool := go pat.data s.data where
  go (p : List Char) : List Char → Bool
    | [] => p.isEmpty
    | c :: t => p.isPrefixOf (c :: t) || go p t

/-- Test performed by `_update_pkglist_files` on a binary RPM filename:
`"-debuginfo" in fn or "-debugsource" in fn`. -/
def isDebugName (fn : String) : Bool :=
  strContains fn "-debuginfo" || strContains fn "-debugsource"

/-- Content of `src/pkglist`: walking `src/Packages`, every filename ending
in `.src.rpm` is recorded at its path relative to `src` (the pkglist's own
directory), in walk order. -/
def src_pkglist (walk : List (List String × String)) : List (List String) :=
  (walk.filter (fun f => strEndsWith f.2 ".src.rpm")).map
    (fun f => relpath f.1 ["src"] ++ [f.2])

/-- Content of `<arch>/pkglist`: walking `<arch>/Packages`, every filename
ending in `.rpm` without a debug marker is recorded at its path relative to
the arch directory, in walk order. -/
def arch_pkglist (arch : String) (walk : List (List String × String)) :
    List (List String) :=
  (walk.filter (fun f => strEndsWith f.2 ".rpm" && !isDebugName f.2)).map
    (fun f => relpath f.1 [arch] ++ [f.2])

/-- Content of `<arch>/debug/pkglist`: walking `<arch>/Packages`, every
filename ending in `.rpm` with a debug marker is recorded at its path
relative to the `<arch>/debug` directory (hence the leading `..`), in walk
order. -/
def arch_debug_pkglist (arch : String) (walk : List (List String × String)) :
    List (List String) :=
  (walk.filter (fun f => strEndsWith f.2 ".rpm" && isDebugName f.2)).map
    (fun f => relpath f.1 [arch, "debug"] ++ [f.2])

/-! ## Compat symlink: `_create_compat_symlink`
(src/bin/distrepos.py lines 568-580) and the subsequent rotation

A minimal filesystem with symlinks: a list of (absolute path, node) entries.
Symlink targets are stored as the path *string* the link was created with
(`os.symlink` stores the target textually; a later rename of the tree does
not rewrite it).
-/

inductive FsNode where
  | dir
  | file
  | symlink (target : List String)
deriving DecidableEq, Repr

def fsLookup (fs : List (List String × FsNode)) (p : List String) :
    Option FsNode :=
  (fs.find? (fun e => e.1 == p)).map (·.2)

/-- Model of `_create_compat_symlink(working_path)`: make the `source`
directory if missing (`mkdir(parents=True, exist_ok=True)`), remove a stale
directory at `source/SRPMS` (`shutil.rmtree`) if one exists, then
`os.symlink(working_path / "src", working_path / "source/SRPMS")` — note the
target is the absolute path `working_path / "src"` inside the *working*
tree. -/
def create_compat_symlink (workingPath : List String)
    (fs : List (List String × FsNode)) : List (List String × FsNode) :=
  let srpmsPath := workingPath ++ ["source", "SRPMS"]
  let fs1 := if fsLookup fs (workingPath ++ ["source"]) = none
             then fs ++ [(workingPath ++ ["source"], FsNode.dir)] else fs
  let fs2 := if fsLookup fs1 srpmsPath = some FsNode.dir
             then fs1.filter (fun e => !(srpmsPath.isPrefixOf e.1))
             else fs1
  fs2 ++ [(srpmsPath, FsNode.symlink (workingPath ++ ["src"]))]

/-- Model of the `shutil.move(working_path, release_path)` rename performed
by `_update_release_repos`: every entry under the source root is re-rooted
at the destination; node payloads — including symlink target strings — are
unchanged. -/
def moveTree (src dst : List String) (fs : List (List String × FsNode)) :
    List (List String × FsNode) :=
  fs.map (fun e =>
    if src.isPrefixOf e.1 then (dst ++ e.1.drop src.length, e.2) else e)

end Distrepos

/-! ## Theorems about the rotation -/

/-- C1: for every starting state in which the working directory is populated
(and released/previous each absent or present), a successful (no-OSError) run
of `_update_release_repos` leaves previous holding exactly the pre-call
released content (absent when released was absent), released holding exactly
the pre-call working content, and the working directory no longer existing. -/
theorem update_release_repos_rotates {α : Type} (s : Distrepos.RepoState α)
    (w : α) (hw : s.working = some w) :
    Distrepos.update_release_repos Distrepos.noFail s =
      (true, ⟨none, some w, s.released⟩) := by
  obtain ⟨sw, sr, sp⟩ := s
  cases hw
  cases sr <;> cases sp <;> rfl

/-- Witness for `update_release_repos_rotates` at a concrete state. -/
theorem update_release_repos_rotates_witness :
    Distrepos.update_release_repos Distrepos.noFail
        (⟨some [0], some [1], some [2]⟩ : Distrepos.RepoState (List Nat)) =
      (true, ⟨none, some [0], some [1]⟩) :=
  update_release_repos_rotates ⟨some [0], some [1], some [2]⟩ [0] rfl

/-- C2: when the final move of working to released fails after released was
successfully moved to previous, `_update_release_repos` attempts to move
previous back to released and raises `TagFailure` (result `false`, the
per-tag failure caught by `run_one_tag`, not a `ProgramError` abort).  When
the rollback move succeeds, released is restored to its pre-call content;
when the rollback move itself fails, the result is still only the tag's
failure. -/
theorem update_release_repos_rollback {α : Type} (s : Distrepos.RepoState α)
    (w r : α) (rollbackFails : Bool)
    (hw : s.working = some w) (hr : s.released = some r) :
    Distrepos.update_release_repos ⟨false, false, true, rollbackFails⟩ s =
      (false,
        if rollbackFails then ⟨some w, none, some r⟩
        else ⟨some w, some r, none⟩) := by
  obtain ⟨sw, sr, sp⟩ := s
  cases hw
  cases hr
  cases sp <;> cases rollbackFails <;> rfl

/-- Witness for `update_release_repos_rollback` at a concrete state. -/
theorem update_release_repos_rollback_witness :
    Distrepos.update_release_repos ⟨false, false, true, false⟩
        (⟨some [0], some [1], some [2]⟩ : Distrepos.RepoState (List Nat)) =
      (false, ⟨some [0], some [1], none⟩) :=
  update_release_repos_rollback ⟨some [0], some [1], some [2]⟩ [0] [1] false
    rfl rfl

/-- C6 counterexample: with the working directory present but *empty*
(content `[]`), `_update_release_repos` does not report a failure and does
not leave the state unchanged: the only precondition the code checks is
`working_path.exists()`, so an empty working directory is rotated into the
released position like any populated one. -/
theorem update_release_repos_empty_working_cex :
    ¬ ((Distrepos.update_release_repos Distrepos.noFail
          (⟨some [], some [1], none⟩ : Distrepos.RepoState (List Nat))).1
            = false
        ∧ (Distrepos.update_release_repos Distrepos.noFail
            (⟨some [], some [1], none⟩ : Distrepos.RepoState (List Nat))).2
            = ⟨some [], some [1], none⟩) := by
  decide

/-- C6 (amended): calling `_update_release_repos` when the working directory
is *absent* raises `TagFailure` (result `false`) before any filesystem
mutation, so released and previous are exactly as they were; an empty but
present working directory is not detected and is rotated normally. -/
theorem update_release_repos_absent_working {α : Type}
    (fp : Distrepos.FailPlan) (s : Distrepos.RepoState α)
    (hw : s.working = none) :
    Distrepos.update_release_repos fp s = (false, s) := by
  obtain ⟨sw, sr, sp⟩ := s
  cases hw
  rfl

/-- Witness for `update_release_repos_absent_working` at a concrete state. -/
theorem update_release_repos_absent_working_witness :
    Distrepos.update_release_repos Distrepos.noFail
        (⟨none, some [1], some [2]⟩ : Distrepos.RepoState (List Nat)) =
      (false, ⟨none, some [1], some [2]⟩) :=
  update_release_repos_absent_working Distrepos.noFail ⟨none, some [1], some [2]⟩ rfl

/-! ## Theorems about the remote existence probe -/

/-- C7: `rsync_exists` classifies exit status 0 as existing and exit status
23 as not found, but on every other exit status it executes `pass` and falls
off the end of the function, implicitly returning Python `None` (modelled as
`none`) instead of a boolean: the classification is not total, contradicting
the function's own `-> bool` annotation (the `# XXX now what?` comment marks
the gap). -/
theorem rsync_exists_unclassified :
    Distrepos.rsync_exists 0 = some true
    ∧ Distrepos.rsync_exists 23 = some false
    ∧ Distrepos.rsync_exists 5 = none
    ∧ Distrepos.rsync_exists 1 = none := by
  decide

/-! ## Theorems about the mirror validator -/

/-- Helper: `is_migrated` accepts exactly status 200. -/
theorem is_migrated_iff_200 (pk : Nat) :
    Distrepos.is_migrated pk = true ↔ pk = 200 := by
  unfold Distrepos.is_migrated
  by_cases h4 : pk = 404 <;> by_cases h2 : pk = 200 <;> simp [h4, h2]

/-- C5 counterexample: on a 200 response whose `Last-Modified` header is
present but unparseable, `test_single_mirror` does not return `False`: the
uncaught `ValueError` from `datetime.strptime` propagates out (`none`),
refuting the claim that in every non-accepting case the check returns false
rather than failing. -/
theorem test_single_mirror_unparseable_cex :
    Distrepos.test_single_mirror (fun _ => none) 0 ⟨200, some "not a date"⟩ 200
        = none
    ∧ Distrepos.test_single_mirror (fun _ => none) 0 ⟨200, some "not a date"⟩ 200
        ≠ some false := by
  decide

/-- C5 (amended): `test_single_mirror` accepts a host iff the metadata-index
request returned 200 with a `Last-Modified` header that parses to a time no
older than 24 hours (86400 s) and the sibling package-list request returned
200; it returns false in every other case except a 200 response with a
present but unparseable `Last-Modified` header, on which it raises
(`datetime.strptime`'s `ValueError` is uncaught) instead of returning
false. -/
theorem test_single_mirror_characterization
    (parseLastModified : String → Option Int) (now : Int)
    (repomdResponse : Distrepos.HttpResponse) (pkglistStatus : Nat) :
    (Distrepos.test_single_mirror parseLastModified now repomdResponse
          pkglistStatus = some true ↔
      (repomdResponse.status = 200
        ∧ ∃ lm t, repomdResponse.lastModified = some lm
            ∧ parseLastModified lm = some t
            ∧ now - t ≤ 86400
            ∧ pkglistStatus = 200))
    ∧ (Distrepos.test_single_mirror parseLastModified now repomdResponse
          pkglistStatus = none ↔
      (repomdResponse.status = 200
        ∧ ∃ lm, repomdResponse.lastModified = some lm
            ∧ parseLastModified lm = none)) := by
  obtain ⟨st, lmo⟩ := repomdResponse
  by_cases hst : st = 200
  · subst hst
    cases lmo with
    | none => simp [Distrepos.test_single_mirror]
    | some lm =>
      cases hp : parseLastModified lm with
      | none => simp [Distrepos.test_single_mirror, hp]
      | some tm =>
        by_cases ht : now - tm > 86400
        · simp [Distrepos.test_single_mirror, hp, ht, is_migrated_iff_200]
          omega
        · simp [Distrepos.test_single_mirror, hp, ht, is_migrated_iff_200]
          omega
  · simp [Distrepos.test_single_mirror, hst]

/-! ## Theorems about the run lock -/

/-- C9: while a handle returned by `acquire_lock` is held, a second
`acquire_lock` on the same path returns no handle and leaves the lock table
unchanged (the non-blocking flock raises `BlockingIOError`, which is caught);
after `release_lock` on the first handle, a further `acquire_lock` on the
same path succeeds. -/
theorem acquire_lock_mutual_exclusion (st : Distrepos.LockTable) (p : String)
    (hp : p ∉ st.held) :
    (Distrepos.acquire_lock st p).1 = some p
    ∧ Distrepos.acquire_lock (Distrepos.acquire_lock st p).2 p =
        (none, (Distrepos.acquire_lock st p).2)
    ∧ (Distrepos.acquire_lock
        (Distrepos.release_lock (Distrepos.acquire_lock st p).2
          (Distrepos.acquire_lock st p).1) p).1 = some p := by
  simp [Distrepos.acquire_lock, Distrepos.release_lock, hp]

/-- Witness for `acquire_lock_mutual_exclusion` on an empty lock table. -/
theorem acquire_lock_mutual_exclusion_witness :
    (Distrepos.acquire_lock ⟨[]⟩ "mirrors").1 = some "mirrors"
    ∧ Distrepos.acquire_lock (Distrepos.acquire_lock ⟨[]⟩ "mirrors").2 "mirrors"
        = (none, (Distrepos.acquire_lock ⟨[]⟩ "mirrors").2)
    ∧ (Distrepos.acquire_lock
        (Distrepos.release_lock (Distrepos.acquire_lock ⟨[]⟩ "mirrors").2
          (Distrepos.acquire_lock ⟨[]⟩ "mirrors").1) "mirrors").1
        = some "mirrors" :=
  acquire_lock_mutual_exclusion ⟨[]⟩ "mirrors" (by decide)

/-! ## Theorems about the mirror-list update loop -/

/-- Helper: the arch loop of `update_mirrors_for_tag`, started with any
accumulated working files, stops with failure at the first arch with no good
mirrors, never reaching the rotation. -/
theorem update_mirrors_loop_stops (hostnames : List String)
    (good : String → String → Bool) (arches : List String)
    (acc : List (String × List String))
    (h : ∃ a ∈ arches, Distrepos.goodMirrorsFor hostnames good a = []) :
    Distrepos.update_mirrors_loop hostnames good arches acc =
      ⟨false,
        acc ++ (arches.takeWhile
          (fun a => !(Distrepos.goodMirrorsFor hostnames good a).isEmpty)).map
            (fun a => (a, Distrepos.goodMirrorsFor hostnames good a)),
        false⟩ := by
  induction arches generalizing acc with
  | nil => simp at h
  | cons a rest ih =>
    by_cases ha : Distrepos.goodMirrorsFor hostnames good a = []
    · simp [Distrepos.update_mirrors_loop, ha, List.takeWhile_cons,
        List.isEmpty_iff.mpr ha]
    · have hrest : ∃ b ∈ rest, Distrepos.goodMirrorsFor hostnames good b = [] := by
        rcases h with ⟨b, hb, hbe⟩
        rcases List.mem_cons.mp hb with hba | hbr
        · exact absurd (hba ▸ hbe) ha
        · exact ⟨b, hbr, hbe⟩
      have hne : (Distrepos.goodMirrorsFor hostnames good a).isEmpty = false := by
        simpa [List.isEmpty_iff] using ha
      simp [Distrepos.update_mirrors_loop, ha, List.takeWhile_cons, hne,
        ih _ hrest]

/-- C10: if any architecture in the tag's arch list yields zero accepted
mirror hosts, `update_mirrors_for_tag` returns failure before the rotation
(`update_release_repos`) is invoked, so the released mirror-list tree is
untouched; the working mirror files for the architectures processed before
the first failing one have however already been written. -/
theorem update_mirrors_for_tag_stops_before_rotation (hostnames : List String)
    (good : String → String → Bool) (arches : List String)
    (h : ∃ a ∈ arches, Distrepos.goodMirrorsFor hostnames good a = []) :
    Distrepos.update_mirrors_for_tag hostnames good arches =
      ⟨false,
        (arches.takeWhile
          (fun a => !(Distrepos.goodMirrorsFor hostnames good a).isEmpty)).map
            (fun a => (a, Distrepos.goodMirrorsFor hostnames good a)),
        false⟩ := by
  simpa [Distrepos.update_mirrors_for_tag] using
    update_mirrors_loop_stops hostnames good arches [] h

/-- Witness for `update_mirrors_for_tag_stops_before_rotation`: one candidate
host that is good for `x86_64` but not for `aarch64`. -/
theorem update_mirrors_for_tag_stops_before_rotation_witness :
    Distrepos.update_mirrors_for_tag ["https://repo.osg-htc.org"]
        (fun arch _ => arch == "x86_64") ["x86_64", "aarch64"] =
      ⟨false, [("x86_64", ["https://repo.osg-htc.org"])], false⟩ :=
  update_mirrors_for_tag_stops_before_rotation ["https://repo.osg-htc.org"]
    (fun arch _ => arch == "x86_64") ["x86_64", "aarch64"]
    (by decide)

/-! ## Theorems about the atomic pkglist rewrite -/

/-- Helper: running the `print` steps appends the lines to the `.new` file
and never touches the final name. -/
theorem runSteps_writeLines (ls acc : List String) (fin : Option (List String)) :
    Distrepos.runSteps ⟨some acc, fin⟩ (ls.map Distrepos.WriteStep.writeLine) =
      ⟨some (acc ++ ls), fin⟩ := by
  induction ls generalizing acc with
  | nil => simp [Distrepos.runSteps]
  | cons l rest ih =>
    simp only [List.map_cons, Distrepos.runSteps, List.foldl_cons,
      Distrepos.applyStep, Option.map_some]
    simpa [Distrepos.runSteps] using ih (acc ++ [l])

/-- Helper: a completed rebuild leaves the new content under the final name
and no `.new` file. -/
theorem runSteps_full (lines : List String) (s0 : Distrepos.PkglistFile) :
    Distrepos.runSteps s0 (Distrepos.rebuildSteps lines) = ⟨none, some lines⟩ := by
  simp only [Distrepos.rebuildSteps, Distrepos.runSteps, List.foldl_cons,
    List.foldl_append]
  have h1 : Distrepos.applyStep s0 Distrepos.WriteStep.openNew
      = ⟨some [], s0.final⟩ := rfl
  rw [h1]
  have h2 := runSteps_writeLines lines [] s0.final
  simp only [Distrepos.runSteps] at h2
  rw [h2]
  rfl

/-- C4: every pkglist rebuild writes the complete new content to the `.new`
temporary file and only then renames it over the final name: after any
prefix of the rebuild's steps (i.e., also if the rebuild is interrupted at
any point), the final name holds either the complete old content or the
complete new content, and after the full rebuild it holds the new
content. -/
theorem pkglist_write_atomic (lines : List String) (s0 : Distrepos.PkglistFile)
    (p : List Distrepos.WriteStep) (hp : p <+: Distrepos.rebuildSteps lines) :
    ((Distrepos.runSteps s0 p).final = s0.final
      ∨ (Distrepos.runSteps s0 p).final = some lines)
    ∧ (Distrepos.runSteps s0 (Distrepos.rebuildSteps lines)).final = some lines := by
  refine ⟨?_, by rw [runSteps_full]⟩
  rcases p with _ | ⟨a, q⟩
  · left; rfl
  · obtain ⟨t, ht⟩ := hp
    simp only [Distrepos.rebuildSteps, List.cons_append, List.cons.injEq] at ht
    obtain ⟨rfl, hqt⟩ := ht
    have hq : q <+: lines.map Distrepos.WriteStep.writeLine
        ++ [Distrepos.WriteStep.renameToFinal] := ⟨t, hqt⟩
    have hqtake := List.prefix_iff_eq_take.mp hq
    by_cases hn : q.length ≤ lines.length
    · left
      have hqe : q = (lines.take q.length).map Distrepos.WriteStep.writeLine := by
        rw [hqtake, List.take_append_eq_append_take]
        have hz : q.length - (lines.map Distrepos.WriteStep.writeLine).length = 0 := by
          simpa using Nat.sub_eq_zero_of_le (by simpa using hn)
        rw [hz]
        simp [List.map_take]
      rw [hqe]
      have hstep : Distrepos.runSteps s0 (Distrepos.WriteStep.openNew ::
            (lines.take q.length).map Distrepos.WriteStep.writeLine)
          = Distrepos.runSteps ⟨some [], s0.final⟩
              ((lines.take q.length).map Distrepos.WriteStep.writeLine) := rfl
      rw [hstep, runSteps_writeLines]
    · right
      have hlen : q.length ≤ lines.length + 1 := by
        have := hq.length_le
        simpa using this
      have hq1 : q.length = lines.length + 1 := by omega
      have hqe : q = lines.map Distrepos.WriteStep.writeLine
          ++ [Distrepos.WriteStep.renameToFinal] := by
        rw [hqtake]
        apply List.take_of_length_le
        simpa using Nat.le_of_eq hq1.symm
      rw [hqe]
      have hfull := runSteps_full lines s0
      simpa [Distrepos.rebuildSteps] using
        congrArg Distrepos.PkglistFile.final hfull

/-- Witness for `pkglist_write_atomic`: the rebuild of a one-line pkglist
interrupted right after the `.new` file was opened. -/
theorem pkglist_write_atomic_witness :
    ((Distrepos.runSteps ⟨none, some ["Packages/o/old.rpm"]⟩
        [Distrepos.WriteStep.openNew]).final
          = (Distrepos.PkglistFile.mk none (some ["Packages/o/old.rpm"])).final
      ∨ (Distrepos.runSteps ⟨none, some ["Packages/o/old.rpm"]⟩
          [Distrepos.WriteStep.openNew]).final = some ["Packages/n/new.rpm"])
    ∧ (Distrepos.runSteps ⟨none, some ["Packages/o/old.rpm"]⟩
        (Distrepos.rebuildSteps ["Packages/n/new.rpm"])).final
          = some ["Packages/n/new.rpm"] :=
  pkglist_write_atomic ["Packages/n/new.rpm"] ⟨none, some ["Packages/o/old.rpm"]⟩
    [Distrepos.WriteStep.openNew]
    ⟨[Distrepos.WriteStep.writeLine "Packages/n/new.rpm",
      Distrepos.WriteStep.renameToFinal], rfl⟩

/-! ## Theorems about the pkglist classification -/

/-- Helper: `os.path.relpath` of a path inside `src/Packages` relative to
`src` strips the leading `src` component. -/
theorem relpath_under_src (r : List String) :
    Distrepos.relpath ("src" :: "Packages" :: r) ["src"] = "Packages" :: r := by
  simp [Distrepos.relpath]

/-- Helper: `os.path.relpath` of a path inside the arch directory relative
to the arch directory strips the leading arch component. -/
theorem relpath_under_arch (arch : String) (r : List String) :
    Distrepos.relpath (arch :: r) [arch] = r := by
  simp [Distrepos.relpath]

/-- Helper: `os.path.relpath` of a path inside `<arch>/Packages` relative to
`<arch>/debug` starts with one `..` parent-traversal component. -/
theorem relpath_under_arch_debug (arch : String) (r : List String) :
    Distrepos.relpath (arch :: "Packages" :: r) [arch, "debug"] =
      ".." :: "Packages" :: r := by
  simp [Distrepos.relpath]

/-- Helper: a list whose first two components are known decomposes. -/
theorem eq_cons_cons_of_take2 {l : List String} {a b : String}
    (h : l.take 2 = [a, b]) : l = a :: b :: l.drop 2 := by
  conv_lhs => rw [← List.take_append_drop 2 l, h]
  rfl

/-- Helper: two equal snoc-lists have equal last elements. -/
theorem last_of_append_singleton {l₁ l₂ : List String} {a b : String}
    (h : l₁ ++ [a] = l₂ ++ [b]) : a = b := by
  have := congrArg List.getLast? h
  simpa [List.getLast?_concat] using this

/-- Helper: two equal snoc-lists have equal fronts. -/
theorem front_of_append_singleton {l₁ l₂ : List String} {a b : String}
    (h : l₁ ++ [a] = l₂ ++ [b]) : l₁ = l₂ := by
  have := congrArg List.dropLast h
  simpa [List.dropLast_concat] using this

/-- C3: for walks of the source and architecture `Packages` trees (each file
listed once by `os.walk`, all directory paths rooted under `src/Packages`
resp. `<arch>/Packages`): the source pkglist has no duplicate entries and
lists every `.src.rpm` file at its path relative to the source directory;
every `.rpm` file carrying a `-debuginfo`/`-debugsource` marker is listed in
the debug pkglist (with a `..` parent-traversal prefix, its path being
relative to the debug subdirectory) and not in the regular pkglist; every
other `.rpm` file is listed in the regular pkglist (relative to the arch
root) and not in the debug pkglist — so no file appears in more than one
list. -/
theorem pkglist_partition
    (srcWalk archWalk : List (List String × String)) (arch : String)
    (hsrcNodup : srcWalk.Nodup)
    (hs : ∀ f ∈ srcWalk, f.1.take 2 = ["src", "Packages"])
    (ha : ∀ f ∈ archWalk, f.1.take 2 = [arch, "Packages"]) :
    ((Distrepos.src_pkglist srcWalk).Nodup
      ∧ ∀ f ∈ srcWalk, Distrepos.strEndsWith f.2 ".src.rpm" = true →
          Distrepos.relpath f.1 ["src"] ++ [f.2] ∈ Distrepos.src_pkglist srcWalk)
    ∧ (∀ f ∈ archWalk, Distrepos.strEndsWith f.2 ".rpm" = true →
        Distrepos.isDebugName f.2 = true →
        Distrepos.relpath f.1 [arch, "debug"] ++ [f.2]
            ∈ Distrepos.arch_debug_pkglist arch archWalk
          ∧ (Distrepos.relpath f.1 [arch, "debug"] ++ [f.2]).head? = some ".."
          ∧ Distrepos.relpath f.1 [arch] ++ [f.2]
              ∉ Distrepos.arch_pkglist arch archWalk)
    ∧ (∀ f ∈ archWalk, Distrepos.strEndsWith f.2 ".rpm" = true →
        Distrepos.isDebugName f.2 = false →
        Distrepos.relpath f.1 [arch] ++ [f.2]
            ∈ Distrepos.arch_pkglist arch archWalk
          ∧ Distrepos.relpath f.1 [arch, "debug"] ++ [f.2]
              ∉ Distrepos.arch_debug_pkglist arch archWalk) := by
  refine ⟨⟨?_, ?_⟩, ?_, ?_⟩
  swap
  · intro f hf hsuffix
    exact List.mem_map_of_mem _ (List.mem_filter.mpr ⟨hf, hsuffix⟩)
  · have hnodupF :
        (srcWalk.filter (fun g => Distrepos.strEndsWith g.2 ".src.rpm")).Nodup :=
      List.Nodup.filter _ hsrcNodup
    have hinj : ∀ x ∈ srcWalk.filter
          (fun g => Distrepos.strEndsWith g.2 ".src.rpm"),
        ∀ y ∈ srcWalk.filter (fun g => Distrepos.strEndsWith g.2 ".src.rpm"),
        Distrepos.relpath x.1 ["src"] ++ [x.2]
            = Distrepos.relpath y.1 ["src"] ++ [y.2] → x = y := by
      intro x hx y hy hxy
      have hxs := eq_cons_cons_of_take2 (hs x (List.mem_of_mem_filter hx))
      have hys := eq_cons_cons_of_take2 (hs y (List.mem_of_mem_filter hy))
      rw [hxs, relpath_under_src, hys, relpath_under_src] at hxy
      have hxy' : (x.1.drop 2) ++ [x.2] = (y.1.drop 2) ++ [y.2] :=
        List.cons_injective hxy
      have h2 : x.2 = y.2 := last_of_append_singleton hxy'
      have h1 : x.1.drop 2 = y.1.drop 2 := front_of_append_singleton hxy'
      have h1' : x.1 = y.1 := by rw [hxs, hys, h1]
      exact Prod.ext h1' h2
    exact List.Nodup.map_on hinj hnodupF
  · intro f hf hr hd
    have hfs := eq_cons_cons_of_take2 (ha f hf)
    refine ⟨?_, ?_, ?_⟩
    · exact List.mem_map_of_mem _
        (List.mem_filter.mpr ⟨hf, by rw [hr, hd]; rfl⟩)
    · rw [hfs, relpath_under_arch_debug]
      rfl
    · intro hmem
      obtain ⟨g, hgf, hge⟩ := List.mem_map.mp hmem
      have h2 : g.2 = f.2 := last_of_append_singleton hge
      have hpred := (List.mem_filter.mp hgf).2
      rw [h2] at hpred
      simp [hr, hd] at hpred
  · intro f hf hr hd
    have hfs := eq_cons_cons_of_take2 (ha f hf)
    refine ⟨?_, ?_⟩
    · exact List.mem_map_of_mem _
        (List.mem_filter.mpr ⟨hf, by rw [hr, hd]; rfl⟩)
    · intro hmem
      obtain ⟨g, hgf, hge⟩ := List.mem_map.mp hmem
      have h2 : g.2 = f.2 := last_of_append_singleton hge
      have hpred := (List.mem_filter.mp hgf).2
      rw [h2] at hpred
      simp [hr, hd] at hpred

/-- Witness for `pkglist_partition`: one source RPM, one regular binary RPM
and one debuginfo RPM. -/
theorem pkglist_partition_witness :
    ((Distrepos.src_pkglist
        [((["src", "Packages", "g"] : List String), "goodpkg-1.src.rpm")]).Nodup
      ∧ ∀ f ∈ [((["src", "Packages", "g"] : List String), "goodpkg-1.src.rpm")],
          Distrepos.strEndsWith f.2 ".src.rpm" = true →
          Distrepos.relpath f.1 ["src"] ++ [f.2]
            ∈ Distrepos.src_pkglist
                [((["src", "Packages", "g"] : List String), "goodpkg-1.src.rpm")])
    ∧ (∀ f ∈ [((["x86_64", "Packages", "g"] : List String), "goodpkg-1.rpm"),
              ((["x86_64", "Packages", "g"] : List String), "goodpkg-debuginfo-1.rpm")],
        Distrepos.strEndsWith f.2 ".rpm" = true →
        Distrepos.isDebugName f.2 = true →
        Distrepos.relpath f.1 ["x86_64", "debug"] ++ [f.2]
            ∈ Distrepos.arch_debug_pkglist "x86_64"
                [((["x86_64", "Packages", "g"] : List String), "goodpkg-1.rpm"),
                 ((["x86_64", "Packages", "g"] : List String), "goodpkg-debuginfo-1.rpm")]
          ∧ (Distrepos.relpath f.1 ["x86_64", "debug"] ++ [f.2]).head? = some ".."
          ∧ Distrepos.relpath f.1 ["x86_64"] ++ [f.2]
              ∉ Distrepos.arch_pkglist "x86_64"
                  [((["x86_64", "Packages", "g"] : List String), "goodpkg-1.rpm"),
                   ((["x86_64", "Packages", "g"] : List String), "goodpkg-debuginfo-1.rpm")])
    ∧ (∀ f ∈ [((["x86_64", "Packages", "g"] : List String), "goodpkg-1.rpm"),
              ((["x86_64", "Packages", "g"] : List String), "goodpkg-debuginfo-1.rpm")],
        Distrepos.strEndsWith f.2 ".rpm" = true →
        Distrepos.isDebugName f.2 = false →
        Distrepos.relpath f.1 ["x86_64"] ++ [f.2]
            ∈ Distrepos.arch_pkglist "x86_64"
                [((["x86_64", "Packages", "g"] : List String), "goodpkg-1.rpm"),
                 ((["x86_64", "Packages", "g"] : List String), "goodpkg-debuginfo-1.rpm")]
          ∧ Distrepos.relpath f.1 ["x86_64", "debug"] ++ [f.2]
              ∉ Distrepos.arch_debug_pkglist "x86_64"
                  [((["x86_64", "Packages", "g"] : List String), "goodpkg-1.rpm"),
                   ((["x86_64", "Packages", "g"] : List String), "goodpkg-debuginfo-1.rpm")]) :=
  pkglist_partition
    [((["src", "Packages", "g"] : List String), "goodpkg-1.src.rpm")]
    [((["x86_64", "Packages", "g"] : List String), "goodpkg-1.rpm"),
     ((["x86_64", "Packages", "g"] : List String), "goodpkg-debuginfo-1.rpm")]
    "x86_64" (by decide) (by decide) (by decide)

/-! ## Theorems about the compat symlink -/

/-- C8: the pipeline creates `source/SRPMS` in the working tree as a symlink
whose target is the absolute path `working_path / "src"`; after the tree is
rotated to the release path, the symlink (whose target string is unchanged
by the rename) still points at the working tree's `src`, which no longer
exists and differs from the released `src` — so the published
`released/source/SRPMS` link is broken instead of resolving to
`released/src`.  (A stale directory at `source/SRPMS` is indeed removed
before the link is created, and before rotation the link does resolve; the
defect is only the absolute target.)  Working root `repo.working/osg23`,
release root `repo/osg23`. -/
theorem compat_symlink_broken_after_rotation :
    (Distrepos.fsLookup
        (Distrepos.create_compat_symlink ["repo.working", "osg23"]
          [(["repo.working", "osg23"], Distrepos.FsNode.dir),
           (["repo.working", "osg23", "src"], Distrepos.FsNode.dir),
           (["repo.working", "osg23", "src", "pkglist"], Distrepos.FsNode.file)])
        ["repo.working", "osg23", "source", "SRPMS"]
      = some (Distrepos.FsNode.symlink ["repo.working", "osg23", "src"])
    ∧ Distrepos.fsLookup
        (Distrepos.create_compat_symlink ["repo.working", "osg23"]
          [(["repo.working", "osg23"], Distrepos.FsNode.dir),
           (["repo.working", "osg23", "src"], Distrepos.FsNode.dir),
           (["repo.working", "osg23", "src", "pkglist"], Distrepos.FsNode.file)])
        ["repo.working", "osg23", "src"] = some Distrepos.FsNode.dir)
    ∧ (Distrepos.fsLookup
        (Distrepos.moveTree ["repo.working", "osg23"] ["repo", "osg23"]
          (Distrepos.create_compat_symlink ["repo.working", "osg23"]
            [(["repo.working", "osg23"], Distrepos.FsNode.dir),
             (["repo.working", "osg23", "src"], Distrepos.FsNode.dir),
             (["repo.working", "osg23", "src", "pkglist"], Distrepos.FsNode.file)]))
        ["repo", "osg23", "source", "SRPMS"]
      = some (Distrepos.FsNode.symlink ["repo.working", "osg23", "src"])
    ∧ Distrepos.fsLookup
        (Distrepos.moveTree ["repo.working", "osg23"] ["repo", "osg23"]
          (Distrepos.create_compat_symlink ["repo.working", "osg23"]
            [(["repo.working", "osg23"], Distrepos.FsNode.dir),
             (["repo.working", "osg23", "src"], Distrepos.FsNode.dir),
             (["repo.working", "osg23", "src", "pkglist"], Distrepos.FsNode.file)]))
        ["repo.working", "osg23", "src"] = none
    ∧ (["repo.working", "osg23", "src"] : List String) ≠ ["repo", "osg23", "src"])
    ∧ (Distrepos.fsLookup
        (Distrepos.create_compat_symlink ["repo.working", "osg23"]
          [(["repo.working", "osg23"], Distrepos.FsNode.dir),
           (["repo.working", "osg23", "src"], Distrepos.FsNode.dir),
           (["repo.working", "osg23", "source"], Distrepos.FsNode.dir),
           (["repo.working", "osg23", "source", "SRPMS"], Distrepos.FsNode.dir),
           (["repo.working", "osg23", "source", "SRPMS", "junk"], Distrepos.FsNode.file)])
        ["repo.working", "osg23", "source", "SRPMS", "junk"] = none
    ∧ Distrepos.fsLookup
        (Distrepos.create_compat_symlink ["repo.working", "osg23"]
          [(["repo.working", "osg23"], Distrepos.FsNode.dir),
           (["repo.working", "osg23", "src"], Distrepos.FsNode.dir),
           (["repo.working", "osg23", "source"], Distrepos.FsNode.dir),
           (["repo.working", "osg23", "source", "SRPMS"], Distrepos.FsNode.dir),
           (["repo.working", "osg23", "source", "SRPMS", "junk"], Distrepos.FsNode.file)])
        ["repo.working", "osg23", "source", "SRPMS"]
      = some (Distrepos.FsNode.symlink ["repo.working", "osg23", "src"])) := by
  decide
